import Mathlib

/-!
Verification of the ATLS tutor core (fact normalization, rule engine, CBR
retrieval) against its natural-language specification.

The definitions below are a shallow embedding of `src/atls_app.py`
(the `normalize` function there is byte-identical to the one in
`src/atls_gemini2facts.py`).  Python dictionaries with the thirteen fixed
keys are embedded as records; Python values that can appear in the untrusted
input map are embedded as `RawValue` (None, a string, or an int); a raised
exception in `normalize` (Python `int()` on a non-numeric string raises
`ValueError`) is embedded as `Option.none`.  Machine floats in the CBR code
are embedded as exact rationals: every weight and every division in
`case_distance` is modelled in `ℚ`.
-/

namespace ATLS

/-- A value of the untrusted input map handed to `normalize`:
Python `None`, a string, or an int. -/
inductive RawValue where
  | none : RawValue
  | str : String → RawValue
  | int : Int → RawValue
deriving DecidableEq

/-- Python truthiness of a `RawValue`: `None` and `0` and `""` are falsy. -/
def truthy : RawValue → Bool
  | RawValue.none => false
  | RawValue.str s => s != ""
  | RawValue.int n => n != 0

/-- Python `v or dflt` where `dflt` is an int literal (as used in
`int(d.get("sbp", 120) or 120)`). -/
def pyOr (v : RawValue) (dflt : Int) : RawValue :=
  if truthy v then v else RawValue.int dflt

/-- Value of a digit string, most significant first; `Option.none` on a
non-digit character. -/
def digitsVal (cs : List Char) (acc : Nat) : Option Nat :=
  match cs with
  | [] => some acc
  | c :: rest =>
    if 48 ≤ c.toNat ∧ c.toNat ≤ 57 then digitsVal rest (acc * 10 + (c.toNat - 48))
    else Option.none

/-- Python `int(s)` on a string: an optional minus sign followed by at least
one decimal digit; anything else raises `ValueError` (here: `Option.none`). -/
def pyIntOfStr (s : String) : Option Int :=
  match s.toList with
  | [] => Option.none
  | ['-'] => Option.none
  | '-' :: rest => (digitsVal rest 0).map (fun n => -(n : Int))
  | cs => (digitsVal cs 0).map (fun n => (n : Int))

/-- Python `int(v)`.  `int` of an int is itself; `int` of a string parses a
decimal numeral and raises `ValueError` (here: `Option.none`) otherwise;
`int(None)` raises `TypeError` (here: `Option.none`). -/
def toInt : RawValue → Option Int
  | RawValue.int n => some n
  | RawValue.str s => pyIntOfStr s
  | RawValue.none => Option.none

/-- The untrusted input map: each of the thirteen keys of the contract is
either absent (`Option.none`) or bound to an arbitrary `RawValue`. -/
structure RawFacts where
  airway : Option RawValue := Option.none
  cspine : Option RawValue := Option.none
  tension_ptx : Option RawValue := Option.none
  open_ptx : Option RawValue := Option.none
  flail : Option RawValue := Option.none
  resp_distress : Option RawValue := Option.none
  sbp : Option RawValue := Option.none
  ext_bleed : Option RawValue := Option.none
  pelvic_unstable : Option RawValue := Option.none
  gcs : Option RawValue := Option.none
  pupils : Option RawValue := Option.none
  hypothermia : Option RawValue := Option.none
  burns : Option RawValue := Option.none
deriving DecidableEq

/-- The normalized fact record (`normalize`'s output dict): categorical
fields are strings, `sbp` and `gcs` are Python ints. -/
structure PatientFacts where
  airway : String
  cspine : String
  tension_ptx : String
  open_ptx : String
  flail : String
  resp_distress : String
  sbp : Int
  ext_bleed : String
  pelvic_unstable : String
  gcs : Int
  pupils : String
  hypothermia : String
  burns : String
deriving DecidableEq

/-- `def pick(x, allowed, default): return x if x in allowed else default`.
A non-string value is never a member of a set of strings. -/
def pick (x : RawValue) (allowed : List String) (dflt : String) : String :=
  match x with
  | RawValue.str s => if s ∈ allowed then s else dflt
  | _ => dflt

/-- Python `d.get(key, dflt)`. -/
def getD (o : Option RawValue) (dflt : RawValue) : RawValue :=
  o.getD dflt

/-- `int(d.get(key, dflt) or dflt)` — the numeric read used for `sbp` and
`gcs`; `Option.none` is the raised `ValueError`/`TypeError`. -/
def readInt (o : Option RawValue) (dflt : Int) : Option Int :=
  toInt (pyOr (getD o (RawValue.int dflt)) dflt)

def airwayAllowed : List String := ["patent", "obstructed", "compromised", "unknown"]
def cspineAllowed : List String := ["yes", "no", "unknown"]
def ynAllowed : List String := ["yes", "no"]
def pupilsAllowed : List String := ["equal", "unequal", "unknown"]

/-- The airway field as resolved by `pick(d.get("airway","unknown"), …)`,
before the derived gcs-based override. -/
def resolve_airway (d : RawFacts) : String :=
  pick (getD d.airway (RawValue.str "unknown")) airwayAllowed "unknown"

/-- The `out` dict of `normalize` as first constructed, given the two
already-read integer values `sbpv` (for `int(d.get("sbp",120) or 120)`) and
`gcsv` (for `int(d.get("gcs",15) or 15)`). -/
def preNormalize (d : RawFacts) (sbpv gcsv : Int) : PatientFacts :=
  { airway := resolve_airway d
    cspine := pick (getD d.cspine (RawValue.str "unknown")) cspineAllowed "unknown"
    tension_ptx := pick (getD d.tension_ptx (RawValue.str "no")) ynAllowed "no"
    open_ptx := pick (getD d.open_ptx (RawValue.str "no")) ynAllowed "no"
    flail := pick (getD d.flail (RawValue.str "no")) ynAllowed "no"
    resp_distress := pick (getD d.resp_distress (RawValue.str "no")) ynAllowed "no"
    sbp := max 0 sbpv
    ext_bleed := pick (getD d.ext_bleed (RawValue.str "no")) ynAllowed "no"
    pelvic_unstable := pick (getD d.pelvic_unstable (RawValue.str "no")) ynAllowed "no"
    gcs := min 15 (max 3 gcsv)
    pupils := pick (getD d.pupils (RawValue.str "unknown")) pupilsAllowed "unknown"
    hypothermia := pick (getD d.hypothermia (RawValue.str "no")) ynAllowed "no"
    burns := pick (getD d.burns (RawValue.str "no")) ynAllowed "no" }

/-- The `out` dict after the derived airway override
(`if out["airway"] == "unknown" and out["gcs"] <= 8`). -/
def normalizeWith (d : RawFacts) (sbpv gcsv : Int) : PatientFacts :=
  if (preNormalize d sbpv gcsv).airway = "unknown" ∧ (preNormalize d sbpv gcsv).gcs ≤ 8 then
    { preNormalize d sbpv gcsv with airway := "compromised" }
  else preNormalize d sbpv gcsv

/-- `normalize(d)` from `src/atls_app.py` lines 100–119.  Every field is
resolved exactly as in the source; the two `int(...)` reads can raise, which
is modelled by the `Option`.  The derived airway rule is applied once, after
all field resolution. -/
def normalize (d : RawFacts) : Option PatientFacts :=
  match readInt d.sbp 120, readInt d.gcs 15 with
  | some sbpv, some gcsv => some (normalizeWith d sbpv gcsv)
  | _, _ => Option.none

/-- The §3 domain invariants of a `PatientFacts` record. -/
def FactsValid (f : PatientFacts) : Prop :=
  f.airway ∈ airwayAllowed ∧
  f.cspine ∈ cspineAllowed ∧
  f.tension_ptx ∈ ynAllowed ∧
  f.open_ptx ∈ ynAllowed ∧
  f.flail ∈ ynAllowed ∧
  f.resp_distress ∈ ynAllowed ∧
  0 ≤ f.sbp ∧
  f.ext_bleed ∈ ynAllowed ∧
  f.pelvic_unstable ∈ ynAllowed ∧
  3 ≤ f.gcs ∧ f.gcs ≤ 15 ∧
  f.pupils ∈ pupilsAllowed ∧
  f.hypothermia ∈ ynAllowed ∧
  f.burns ∈ ynAllowed

instance (f : PatientFacts) : Decidable (FactsValid f) := by
  unfold FactsValid; infer_instance

/-- Feeding `normalize`'s output dict back to `normalize`: every field is
present, categorical fields as strings, `sbp`/`gcs` as ints. -/
def toRaw (f : PatientFacts) : RawFacts :=
  { airway := some (RawValue.str f.airway)
    cspine := some (RawValue.str f.cspine)
    tension_ptx := some (RawValue.str f.tension_ptx)
    open_ptx := some (RawValue.str f.open_ptx)
    flail := some (RawValue.str f.flail)
    resp_distress := some (RawValue.str f.resp_distress)
    sbp := some (RawValue.int f.sbp)
    ext_bleed := some (RawValue.str f.ext_bleed)
    pelvic_unstable := some (RawValue.str f.pelvic_unstable)
    gcs := some (RawValue.int f.gcs)
    pupils := some (RawValue.str f.pupils)
    hypothermia := some (RawValue.str f.hypothermia)
    burns := some (RawValue.str f.burns) }

/-- The empty input map. -/
def emptyRaw : RawFacts := {}

/-! ## Rule engine (`run_atls_engine`, src/atls_app.py lines 124–202)

Each `fire(name, why)` appends one `(name, why)` pair to the action list, so
the imperative body is embedded as the concatenation of one segment per rule
block, in source order.  Action texts are copied verbatim from the source
(including its mojibake arrow in the neuro justification). -/

/-- An emitted action: the `(name, why)` pair passed to `fire`. -/
def Action : Type := String × String

instance : DecidableEq Action := instDecidableEqProd

def actPrimary : Action :=
  ("PRIMARY SURVEY: Follow ABCDE with life-threats first.",
   "ATLS primary survey begins now")

def actAirwayObstructed : Action :=
  ("A) AIRWAY OBSTRUCTED: Jaw thrust, suction; adjunct; prepare intubation.",
   "Obstructed airway threatens oxygenation/ventilation")

def actCspineAirway : Action :=
  ("A) C-SPINE: Maintain full cervical spine immobilization.",
   "C-spine protection during airway maneuvers")

def actDefinitiveAirway : Action :=
  ("A) DEFINITIVE AIRWAY: Consider RSI for airway protection (GCS<=8 or compromised).",
   "Failure to protect airway or low GCS")

def actCspine : Action :=
  ("A) C-SPINE: Maintain immobilization.",
   "Mechanism/assessment suggests cervical spine risk")

def actTension : Action :=
  ("B) TENSION PNEUMOTHORAX: Immediate needle decompression, then chest tube.",
   "Life-threatening ventilatory compromise")

def actOpenPtx : Action :=
  ("B) OPEN PNEUMOTHORAX: 3-sided occlusive dressing; chest tube and definitive closure.",
   "Sucking chest wound impairs ventilation")

def actVent : Action :=
  ("B) CHEST INJURY/RESP DISTRESS: O2, analgesia; consider PPV; evaluate for underlying injury.",
   "Impaired ventilation requires support")

def actBleed : Action :=
  ("C) MASSIVE EXTERNAL HEMORRHAGE: Direct pressure; pressure dressing; tourniquet if needed.",
   "Stop external bleeding immediately")

def actShock : Action :=
  ("C) SHOCK: 2 large-bore IVs; consider blood products (balanced resuscitation); control bleeding source.",
   "SBP<90 suggests shock; resuscitate and control hemorrhage")

def actPelvic : Action :=
  ("C) PELVIC UNSTABLE: Apply pelvic binder; minimize manipulation; evaluate for pelvic hemorrhage.",
   "Pelvic ring injuries bleed significantly")

def actNeuro : Action :=
  ("D) NEURO: Frequent neuro checks; consider head CT when stable; correct hypoxia/hypotension.",
   "Low GCS or unequal pupils â†’ possible TBI")

def actExposure : Action :=
  ("E) EXPOSURE: Fully expose for inspection; then prevent hypothermia.",
   "Hidden injuries & thermal protection")

def actHypothermia : Action :=
  ("E) HYPOTHERMIA: Remove wet clothing; warm blankets; warmed fluids/air.",
   "Hypothermia worsens coagulopathy and outcomes")

def actSecondary : Action :=
  ("SECONDARY SURVEY: Head-to-toe exam & adjuncts once immediate threats addressed.",
   "Stable enough to proceed to secondary survey")

def actTransfer : Action :=
  ("CONSIDER TRANSFER: If resources limited or persistent instability, prepare rapid transfer to trauma center.",
   "Persistent life threat or resource needs")

/-- The `stable_for_secondary` condition of the disposition branch. -/
def stable_for_secondary (f : PatientFacts) : Prop :=
  (f.airway = "patent" ∨ f.airway = "compromised") ∧
  f.tension_ptx = "no" ∧ f.open_ptx = "no" ∧ 90 ≤ f.sbp

instance (f : PatientFacts) : Decidable (stable_for_secondary f) := by
  unfold stable_for_secondary; infer_instance

/-- The final disposition block: secondary survey, else possibly transfer. -/
def seg_disposition (f : PatientFacts) : List Action :=
  if stable_for_secondary f then [actSecondary]
  else if f.sbp < 90 ∨ f.tension_ptx = "yes" ∨ f.airway = "obstructed" then [actTransfer]
  else []

/-- `run_atls_engine(f)`: one segment per rule block, in source order. -/
def run_atls_engine (f : PatientFacts) : List Action :=
  [actPrimary]
  ++ (if f.airway = "obstructed" then [actAirwayObstructed, actCspineAirway] else [])
  ++ (if f.airway = "compromised" ∨ f.gcs ≤ 8 then [actDefinitiveAirway] else [])
  ++ (if f.cspine = "yes" then [actCspine] else [])
  ++ (if f.tension_ptx = "yes" then [actTension] else [])
  ++ (if f.open_ptx = "yes" then [actOpenPtx] else [])
  ++ (if f.flail = "yes" ∨ f.resp_distress = "yes" then [actVent] else [])
  ++ (if f.ext_bleed = "yes" then [actBleed] else [])
  ++ (if f.sbp < 90 then [actShock] else [])
  ++ (if f.pelvic_unstable = "yes" then [actPelvic] else [])
  ++ (if f.gcs < 13 ∨ f.pupils = "unequal" then [actNeuro] else [])
  ++ [actExposure]
  ++ (if f.hypothermia = "yes" then [actHypothermia] else [])
  ++ seg_disposition f

/-- The Scenario-B facts: everything stable. -/
def fStable : PatientFacts :=
  { airway := "patent", cspine := "no", tension_ptx := "no", open_ptx := "no",
    flail := "no", resp_distress := "no", sbp := 120, ext_bleed := "no",
    pelvic_unstable := "no", gcs := 15, pupils := "equal", hypothermia := "no",
    burns := "no" }

/-- The eleven actions that can be emitted by the airway-, breathing-,
circulation-, and disability-triggered rules (rules 2–11). -/
def abcdActionPool : List Action :=
  [actAirwayObstructed, actCspineAirway, actDefinitiveAirway, actCspine,
   actTension, actOpenPtx, actVent, actBleed, actShock, actPelvic, actNeuro]

/-- The part of the engine output emitted before the exposure action: the
primary survey and the A/B/C/D rule segments, in source order. -/
def engine_before_exposure (f : PatientFacts) : List Action :=
  [actPrimary]
  ++ (if f.airway = "obstructed" then [actAirwayObstructed, actCspineAirway] else [])
  ++ (if f.airway = "compromised" ∨ f.gcs ≤ 8 then [actDefinitiveAirway] else [])
  ++ (if f.cspine = "yes" then [actCspine] else [])
  ++ (if f.tension_ptx = "yes" then [actTension] else [])
  ++ (if f.open_ptx = "yes" then [actOpenPtx] else [])
  ++ (if f.flail = "yes" ∨ f.resp_distress = "yes" then [actVent] else [])
  ++ (if f.ext_bleed = "yes" then [actBleed] else [])
  ++ (if f.sbp < 90 then [actShock] else [])
  ++ (if f.pelvic_unstable = "yes" then [actPelvic] else [])
  ++ (if f.gcs < 13 ∨ f.pupils = "unequal" then [actNeuro] else [])

/-- The part of the engine output emitted after the exposure action: the
hypothermia segment and the disposition branch. -/
def engine_after_exposure (f : PatientFacts) : List Action :=
  (if f.hypothermia = "yes" then [actHypothermia] else []) ++ seg_disposition f

/-- An input map whose `sbp` entry is a truthy non-numeric string: Python
`int("abc")` raises `ValueError`. -/
def rawBadSbp : RawFacts := { sbp := some (RawValue.str "abc") }

/-- An input map with a negative `sbp`: it normalizes to `sbp = 0`, which is
falsy in Python and so renormalizes to `120`. -/
def rawNegSbp : RawFacts := { sbp := some (RawValue.int (-5)) }

/-- An input map with no airway entry and a low gcs. -/
def rawLowGcs : RawFacts := { gcs := some (RawValue.int 6) }

/-- `normalize rawLowGcs`: the derived rule fires. -/
def factsLowGcs : PatientFacts :=
  { airway := "compromised", cspine := "unknown", tension_ptx := "no",
    open_ptx := "no", flail := "no", resp_distress := "no", sbp := 120,
    ext_bleed := "no", pelvic_unstable := "no", gcs := 6, pupils := "unknown",
    hypothermia := "no", burns := "no" }

/-- `normalize emptyRaw`: every field at its default. -/
def factsDefault : PatientFacts :=
  { airway := "unknown", cspine := "unknown", tension_ptx := "no",
    open_ptx := "no", flail := "no", resp_distress := "no", sbp := 120,
    ext_bleed := "no", pelvic_unstable := "no", gcs := 15, pupils := "unknown",
    hypothermia := "no", burns := "no" }

/-! ## Case base and CBR retrieval (src/atls_app.py lines 207–508) -/

/-- A reference case: id, label, the thirteen fact fields, and the stored
action plan. -/
structure Case where
  id : Int
  label : String
  airway : String
  cspine : String
  tension_ptx : String
  open_ptx : String
  flail : String
  resp_distress : String
  sbp : Int
  ext_bleed : String
  pelvic_unstable : String
  gcs : Int
  pupils : String
  hypothermia : String
  burns : String
  actions : List String
deriving DecidableEq

/-- The fact part of a case, as the thirteen-field record. -/
def caseFacts (c : Case) : PatientFacts :=
  { airway := c.airway, cspine := c.cspine, tension_ptx := c.tension_ptx,
    open_ptx := c.open_ptx, flail := c.flail, resp_distress := c.resp_distress,
    sbp := c.sbp, ext_bleed := c.ext_bleed, pelvic_unstable := c.pelvic_unstable,
    gcs := c.gcs, pupils := c.pupils, hypothermia := c.hypothermia,
    burns := c.burns }

def case1 : Case :=
  { id := 1, label := "High-speed MVC with tension PTX and shock",
    airway := "compromised", cspine := "yes", tension_ptx := "yes",
    open_ptx := "no", flail := "no", resp_distress := "yes", sbp := 80,
    ext_bleed := "no", pelvic_unstable := "no", gcs := 6, pupils := "equal",
    hypothermia := "no", burns := "no",
    actions := ["RSI airway", "Needle decompression", "Chest tube",
                "IV access + blood", "Consider transfer"] }

def case2 : Case :=
  { id := 2, label := "GSW to thigh with massive hemorrhage",
    airway := "patent", cspine := "unknown", tension_ptx := "no",
    open_ptx := "no", flail := "no", resp_distress := "no", sbp := 70,
    ext_bleed := "yes", pelvic_unstable := "no", gcs := 14, pupils := "equal",
    hypothermia := "no", burns := "no",
    actions := ["Direct pressure / tourniquet", "IV access + blood",
                "Monitor for shock", "Consider transfer"] }

def case3 : Case :=
  { id := 3, label := "Pelvic crush injury with hypotension",
    airway := "patent", cspine := "unknown", tension_ptx := "no",
    open_ptx := "no", flail := "no", resp_distress := "no", sbp := 85,
    ext_bleed := "no", pelvic_unstable := "yes", gcs := 13, pupils := "equal",
    hypothermia := "no", burns := "no",
    actions := ["Pelvic binder", "IV access + blood",
                "Assess for pelvic hemorrhage", "Consider transfer"] }

def case4 : Case :=
  { id := 4, label := "Stable blunt trauma",
    airway := "patent", cspine := "no", tension_ptx := "no",
    open_ptx := "no", flail := "no", resp_distress := "no", sbp := 120,
    ext_bleed := "no", pelvic_unstable := "no", gcs := 15, pupils := "equal",
    hypothermia := "no", burns := "no",
    actions := ["Complete primary survey", "Secondary survey",
                "Adjunct imaging as needed"] }

def case5 : Case :=
  { id := 5, label := "House fire with burns and inhalation injury",
    airway := "compromised", cspine := "unknown", tension_ptx := "no",
    open_ptx := "no", flail := "no", resp_distress := "yes", sbp := 110,
    ext_bleed := "no", pelvic_unstable := "no", gcs := 14, pupils := "equal",
    hypothermia := "no", burns := "yes",
    actions := ["Early airway protection", "High-flow oxygen",
                "Burn management", "Prevent hypothermia"] }

def case6 : Case :=
  { id := 6, label := "Elderly fall with hypothermia",
    airway := "patent", cspine := "yes", tension_ptx := "no",
    open_ptx := "no", flail := "no", resp_distress := "no", sbp := 110,
    ext_bleed := "no", pelvic_unstable := "no", gcs := 14, pupils := "equal",
    hypothermia := "yes", burns := "no",
    actions := ["C-spine immobilization", "Warm blankets",
                "Warmed IV fluids", "Secondary survey"] }

def case7 : Case :=
  { id := 7, label := "Pediatric blunt trauma, stable",
    airway := "patent", cspine := "no", tension_ptx := "no",
    open_ptx := "no", flail := "no", resp_distress := "no", sbp := 100,
    ext_bleed := "no", pelvic_unstable := "no", gcs := 15, pupils := "equal",
    hypothermia := "no", burns := "no",
    actions := ["Age-appropriate vitals monitoring", "Secondary survey",
                "Observation"] }

def case8 : Case :=
  { id := 8, label := "Flail chest with respiratory distress",
    airway := "patent", cspine := "yes", tension_ptx := "no",
    open_ptx := "no", flail := "yes", resp_distress := "yes", sbp := 110,
    ext_bleed := "no", pelvic_unstable := "no", gcs := 15, pupils := "equal",
    hypothermia := "no", burns := "no",
    actions := ["Analgesia", "Positive pressure ventilation",
                "Evaluate for underlying lung injury"] }

def case9 : Case :=
  { id := 9, label := "GSW chest with open pneumothorax",
    airway := "patent", cspine := "unknown", tension_ptx := "no",
    open_ptx := "yes", flail := "no", resp_distress := "yes", sbp := 95,
    ext_bleed := "no", pelvic_unstable := "no", gcs := 14, pupils := "equal",
    hypothermia := "no", burns := "no",
    actions := ["Three-sided occlusive dressing", "Chest tube",
                "Monitor for shock"] }

def case10 : Case :=
  { id := 10, label := "Blunt head injury with unequal pupils",
    airway := "patent", cspine := "yes", tension_ptx := "no",
    open_ptx := "no", flail := "no", resp_distress := "no", sbp := 130,
    ext_bleed := "no", pelvic_unstable := "no", gcs := 10, pupils := "unequal",
    hypothermia := "no", burns := "no",
    actions := ["Frequent neuro checks", "Rapid CT head when stable",
                "Avoid hypotension/hypoxia"] }

def CASE_BASE : List Case :=
  [case1, case2, case3, case4, case5, case6, case7, case8, case9, case10]

/-- `SIM_WEIGHTS`: the weight dictionary.  Float literals are embedded as the
exact rationals they denote. -/
def SIM_WEIGHTS : List (String × ℚ) :=
  [("airway", 2), ("cspine", 1/2), ("tension_ptx", 3), ("open_ptx", 3),
   ("flail", 3/2), ("resp_distress", 3/2), ("ext_bleed", 3),
   ("pelvic_unstable", 2), ("hypothermia", 1), ("burns", 1), ("pupils", 1),
   ("sbp", 1), ("gcs", 1)]

def FEATURE_KEYS : List String :=
  ["airway", "cspine", "tension_ptx", "open_ptx", "flail", "resp_distress",
   "ext_bleed", "pelvic_unstable", "hypothermia", "burns", "pupils"]

/-- `SIM_WEIGHTS[key]` for the two direct numeric reads. -/
def weightOf (key : String) : ℚ :=
  (SIM_WEIGHTS.lookup key).getD 0

/-- `q.get(key)` / `c.get(key)` for the categorical feature keys. -/
def catField (f : PatientFacts) : String → Option String
  | "airway" => some f.airway
  | "cspine" => some f.cspine
  | "tension_ptx" => some f.tension_ptx
  | "open_ptx" => some f.open_ptx
  | "flail" => some f.flail
  | "resp_distress" => some f.resp_distress
  | "ext_bleed" => some f.ext_bleed
  | "pelvic_unstable" => some f.pelvic_unstable
  | "hypothermia" => some f.hypothermia
  | "burns" => some f.burns
  | "pupils" => some f.pupils
  | _ => Option.none

/-- One iteration of the `for key in FEATURE_KEYS` loop: if the key is in
`SIM_WEIGHTS`, add the weighted mismatch penalty to the accumulator `d`. -/
def catStep (q c : PatientFacts) (d : ℚ) (key : String) : ℚ :=
  match SIM_WEIGHTS.lookup key with
  | some w => d + w * (if catField q key = catField c key then 0 else 1)
  | Option.none => d

/-- `case_distance(q, c)`: the two numeric contributions, then the
`for key in FEATURE_KEYS` loop accumulated left to right, exactly as the
Python `d +=` sequence.  The case argument is passed as its thirteen fact
fields, which are the only keys `case_distance` reads from the case dict. -/
def case_distance (q c : PatientFacts) : ℚ :=
  FEATURE_KEYS.foldl (catStep q c)
    (0 + weightOf "sbp" * (|(q.sbp : ℚ) - (c.sbp : ℚ)| / 40)
       + weightOf "gcs" * (|(q.gcs : ℚ) - (c.gcs : ℚ)| / 15))

/-- One scored entry: the `(sim, c)` pair. -/
def score (q : PatientFacts) (c : Case) : ℚ × Case :=
  (1 / (1 + case_distance q (caseFacts c)), c)

/-- Stable descending insertion, by the similarity key: the inserted element
goes after every strictly greater key and before the first key `≤` its own,
so earlier elements win ties. -/
def insertDesc (x : ℚ × Case) : List (ℚ × Case) → List (ℚ × Case)
  | [] => [x]
  | y :: ys => if x.1 < y.1 then y :: insertDesc x ys else x :: y :: ys

/-- Python `scored.sort(key=lambda x: x[0], reverse=True)` is a stable sort
by the similarity key, descending.  Any stable sort computes the same list;
it is embedded here as stable insertion sort. -/
def sortDesc : List (ℚ × Case) → List (ℚ × Case)
  | [] => []
  | x :: xs => insertDesc x (sortDesc xs)

/-- `retrieve_top_k(query_facts, k)`: score every case, stable-sort by
similarity descending, return the first `k`. -/
def retrieve_top_k (query_facts : PatientFacts) (k : Nat) : List (ℚ × Case) :=
  (sortDesc (CASE_BASE.map (score query_facts))).take k

/-- `explain_match(query_facts, case)`: the matching and differing feature
name lists, in the order the source appends them (`sbp`, `gcs`, then the
categorical keys). -/
def explain_match (query_facts : PatientFacts) (cs : Case) : List String × List String :=
  let c := caseFacts cs
  let checks : List (String × Bool) :=
    ("sbp", decide ((query_facts.sbp - c.sbp).natAbs ≤ 10)) ::
    ("gcs", decide ((query_facts.gcs - c.gcs).natAbs ≤ 2)) ::
    FEATURE_KEYS.map (fun key => (key, decide (catField query_facts key = catField c key)))
  (checks.filterMap (fun p => if p.2 then some p.1 else Option.none),
   checks.filterMap (fun p => if p.2 then Option.none else some p.1))

/-- Modelled from the spec: the PlanComparator of §4.4 is described in the
specification but has no implementation under src/ (the application renders
the rule actions and the stored plan without comparing them).  Per the
spec it computes the set intersection of the two action-text lists by exact
string equality and reports an explicit empty-overlap flag. -/
def compare_plans (ruleActions caseActions : List String) : List String × Bool :=
  let overlap := ruleActions.filter (fun a => decide (a ∈ caseActions))
  (overlap, overlap.isEmpty)

/-! ## Lemmas about the stable descending sort -/

theorem perm_insertDesc (x : ℚ × Case) (l : List (ℚ × Case)) :
    List.Perm (insertDesc x l) (x :: l) := by
  induction l with
  | nil => exact List.Perm.refl _
  | cons y ys ih =>
    unfold insertDesc
    split
    · exact (List.Perm.cons y ih).trans (List.Perm.swap x y ys)
    · exact List.Perm.refl _

theorem perm_sortDesc (l : List (ℚ × Case)) : List.Perm (sortDesc l) l := by
  induction l with
  | nil => exact List.Perm.refl _
  | cons x xs ih =>
    exact (perm_insertDesc x (sortDesc xs)).trans (List.Perm.cons x ih)

theorem mem_sortDesc {y : ℚ × Case} {l : List (ℚ × Case)} :
    y ∈ sortDesc l ↔ y ∈ l :=
  (perm_sortDesc l).mem_iff

theorem length_sortDesc (l : List (ℚ × Case)) : (sortDesc l).length = l.length :=
  (perm_sortDesc l).length_eq

theorem pairwise_insertDesc (x : ℚ × Case) {l : List (ℚ × Case)}
    (h : l.Pairwise (fun a b => b.1 ≤ a.1)) :
    (insertDesc x l).Pairwise (fun a b => b.1 ≤ a.1) := by
  induction l with
  | nil => simp [insertDesc]
  | cons y ys ih =>
    rcases List.pairwise_cons.mp h with ⟨hy, hys⟩
    unfold insertDesc
    split
    case isTrue hlt =>
      refine List.pairwise_cons.mpr ⟨?_, ih hys⟩
      intro z hz
      rcases List.mem_cons.mp ((perm_insertDesc x ys).mem_iff.mp hz) with rfl | hz2
      · exact le_of_lt hlt
      · exact hy z hz2
    case isFalse hge =>
      refine List.pairwise_cons.mpr ⟨?_, h⟩
      intro z hz
      rcases List.mem_cons.mp hz with rfl | hz2
      · exact le_of_not_lt hge
      · exact le_trans (hy z hz2) (le_of_not_lt hge)

theorem pairwise_sortDesc (l : List (ℚ × Case)) :
    (sortDesc l).Pairwise (fun a b => b.1 ≤ a.1) := by
  induction l with
  | nil => simp [sortDesc]
  | cons x xs ih => exact pairwise_insertDesc x ih

theorem sublist_insertDesc (x : ℚ × Case) (l : List (ℚ × Case)) :
    List.Sublist l (insertDesc x l) := by
  induction l with
  | nil => exact List.nil_sublist _
  | cons y ys ih =>
    unfold insertDesc
    split
    · exact List.Sublist.cons₂ y ih
    · exact List.Sublist.cons x (List.Sublist.refl _)

theorem pair_sublist_insertDesc {a b : ℚ × Case} {m : List (ℚ × Case)}
    (hm : m.Pairwise (fun u v => v.1 ≤ u.1)) (hb : b ∈ m) (hba : b.1 ≤ a.1) :
    List.Sublist [a, b] (insertDesc a m) := by
  induction m with
  | nil => cases hb
  | cons y ys ih =>
    rcases List.pairwise_cons.mp hm with ⟨hy, hys⟩
    unfold insertDesc
    split
    case isTrue hlt =>
      rcases List.mem_cons.mp hb with rfl | hb2
      · exact absurd hlt (not_lt.mpr hba)
      · exact List.Sublist.cons y (ih hys hb2)
    case isFalse hge =>
      exact List.Sublist.cons₂ a (List.singleton_sublist.mpr hb)

/-- Stability of the sort: an input-order pair whose keys do not force a swap
stays in input order. -/
theorem pair_sublist_sortDesc {a b : ℚ × Case} {l : List (ℚ × Case)}
    (h : List.Sublist [a, b] l) (hba : b.1 ≤ a.1) :
    List.Sublist [a, b] (sortDesc l) := by
  induction l with
  | nil => cases h
  | cons x xs ih =>
    cases h with
    | cons _ h2 => exact (ih h2).trans (sublist_insertDesc x (sortDesc xs))
    | cons₂ _ h2 =>
      have hb : b ∈ sortDesc xs :=
        mem_sortDesc.mpr (List.singleton_sublist.mp h2)
      exact pair_sublist_insertDesc (pairwise_sortDesc xs) hb hba

/-- Two positions `i < j` of a list give the pair as a sublist. -/
theorem pair_get_sublist {α : Type _} (l : List α) (i j : Nat) (hij : i < j)
    (hj : j < l.length) :
    List.Sublist [l.get ⟨i, Nat.lt_trans hij hj⟩, l.get ⟨j, hj⟩] l := by
  induction l generalizing i j with
  | nil => simp at hj
  | cons x xs ih =>
    cases j with
    | zero => omega
    | succ j2 =>
      cases i with
      | zero =>
        exact List.Sublist.cons₂ x (List.singleton_sublist.mpr (xs.get_mem _ _))
      | succ i2 =>
        exact List.Sublist.cons x
          (ih i2 j2 (Nat.lt_of_succ_lt_succ hij) (Nat.lt_of_succ_lt_succ hj))

/-- Two distinct members of a list appear as a pair sublist in one of the two
orders. -/
theorem pair_sublist_of_mem {α : Type _} {a b : α} {l : List α}
    (ha : a ∈ l) (hb : b ∈ l) (hne : a ≠ b) :
    List.Sublist [a, b] l ∨ List.Sublist [b, a] l := by
  rcases List.mem_iff_get.mp ha with ⟨i, rfl⟩
  rcases List.mem_iff_get.mp hb with ⟨j, rfl⟩
  rcases lt_trichotomy i.1 j.1 with h | h | h
  · left
    have := pair_get_sublist l i.1 j.1 h j.2
    simpa using this
  · exact absurd (congrArg l.get (Fin.ext h)) hne
  · right
    have := pair_get_sublist l j.1 i.1 h i.2
    simpa using this

/-- In a duplicate-free list a pair cannot occur as a sublist in both orders
unless its components are equal. -/
theorem eq_of_pair_sublist_both {α : Type _} {a b : α} {l : List α}
    (nd : l.Nodup) (h1 : List.Sublist [a, b] l) (h2 : List.Sublist [b, a] l) :
    a = b := by
  induction l with
  | nil => cases h1
  | cons x xs ih =>
    rcases List.nodup_cons.mp nd with ⟨hx, nd2⟩
    cases h1 with
    | cons _ h1b =>
      cases h2 with
      | cons _ h2b => exact ih nd2 h1b h2b
      | cons₂ _ h2b =>
        exact absurd (h1b.subset (by simp)) hx
    | cons₂ _ h1b =>
      cases h2 with
      | cons _ h2b =>
        exact absurd (h2b.subset (by simp)) hx
      | cons₂ _ h2b => rfl

/-! ## Lemmas about the normalizer -/

theorem pick_mem (x : RawValue) (allowed : List String) (dflt : String)
    (hd : dflt ∈ allowed) : pick x allowed dflt ∈ allowed := by
  cases x with
  | str s =>
    simp only [pick]
    split
    · assumption
    · exact hd
  | none => exact hd
  | int n => exact hd

theorem pick_of_mem {s : String} (allowed : List String) (dflt : String)
    (h : s ∈ allowed) : pick (RawValue.str s) allowed dflt = s := by
  simp [pick, h]

/-- If the airway entry of the input map is not one of the four allowed
strings (in particular if it is absent, of the wrong type, or an out-of-enum
string), it resolves to the default `"unknown"`. -/
theorem resolve_airway_unknown {d : RawFacts}
    (h1 : ∀ s ∈ airwayAllowed, d.airway ≠ some (RawValue.str s)) :
    resolve_airway d = "unknown" := by
  unfold resolve_airway getD
  rcases ha : d.airway with _ | v
  · decide
  · cases v with
    | str s =>
      simp only [Option.getD_some, pick]
      split
      case isTrue hmem => exact absurd ha (h1 s hmem)
      case isFalse hmem => rfl
    | none => rfl
    | int n => rfl

theorem preNormalize_valid (d : RawFacts) (s g : Int) :
    FactsValid (preNormalize d s g) := by
  refine ⟨pick_mem _ _ _ (by decide), pick_mem _ _ _ (by decide),
    pick_mem _ _ _ (by decide), pick_mem _ _ _ (by decide),
    pick_mem _ _ _ (by decide), pick_mem _ _ _ (by decide),
    le_max_left 0 s,
    pick_mem _ _ _ (by decide), pick_mem _ _ _ (by decide),
    le_min (by norm_num) (le_max_left 3 g), min_le_left 15 _,
    pick_mem _ _ _ (by decide), pick_mem _ _ _ (by decide),
    pick_mem _ _ _ (by decide)⟩

theorem normalizeWith_valid (d : RawFacts) (s g : Int) :
    FactsValid (normalizeWith d s g) := by
  have hv := preNormalize_valid d s g
  unfold normalizeWith
  split
  · obtain ⟨h1, h2, h3, h4, h5, h6, h7, h8, h9, h10, h11, h12, h13, h14⟩ := hv
    exact ⟨show ("compromised" : String) ∈ airwayAllowed by decide,
      h2, h3, h4, h5, h6, h7, h8, h9, h10, h11, h12, h13, h14⟩
  · exact hv

theorem normalizeWith_gcs (d : RawFacts) (s g : Int) :
    (normalizeWith d s g).gcs = min 15 (max 3 g) := by
  unfold normalizeWith
  split <;> rfl

theorem normalizeWith_sbp (d : RawFacts) (s g : Int) :
    (normalizeWith d s g).sbp = max 0 s := by
  unfold normalizeWith
  split <;> rfl

theorem normalizeWith_airway_of_unknown (d : RawFacts) (s g : Int)
    (hu : resolve_airway d = "unknown") (hg : (normalizeWith d s g).gcs ≤ 8) :
    (normalizeWith d s g).airway = "compromised" := by
  rw [normalizeWith_gcs] at hg
  unfold normalizeWith
  split
  case isTrue h => rfl
  case isFalse h => exact absurd ⟨hu, hg⟩ h

theorem normalizeWith_airway_of_ne (d : RawFacts) (s g : Int)
    (hu : resolve_airway d ≠ "unknown") :
    (normalizeWith d s g).airway = resolve_airway d := by
  unfold normalizeWith
  split
  case isTrue h => exact absurd h.1 hu
  case isFalse h => rfl

/-- A normalized record never has an unknown airway together with `gcs ≤ 8`:
the derived rule has already fired. -/
theorem normalizeWith_no_retrigger (d : RawFacts) (s g : Int)
    (hu : (normalizeWith d s g).airway = "unknown") :
    ¬ (normalizeWith d s g).gcs ≤ 8 := by
  intro hg
  rw [normalizeWith_gcs] at hg
  revert hu
  unfold normalizeWith
  split
  case isTrue h =>
    intro hu
    exact absurd hu (show ¬ ("compromised" : String) = "unknown" by decide)
  case isFalse h => intro hu; exact h ⟨hu, hg⟩

theorem of_normalize_eq_some {d : RawFacts} {f : PatientFacts}
    (h : normalize d = some f) :
    ∃ s g, readInt d.sbp 120 = some s ∧ readInt d.gcs 15 = some g ∧
      f = normalizeWith d s g := by
  unfold normalize at h
  rcases hs : readInt d.sbp 120 with _ | s <;> rw [hs] at h
  · simp at h
  · rcases hg : readInt d.gcs 15 with _ | g <;> rw [hg] at h
    · simp at h
    · simp at h
      exact ⟨s, g, rfl, rfl, h.symm⟩

theorem readInt_isSome {o : Option RawValue} {dflt : Int}
    (h : truthy (getD o (RawValue.int dflt)) = true →
         (toInt (getD o (RawValue.int dflt))).isSome) :
    (readInt o dflt).isSome := by
  unfold readInt pyOr
  by_cases ht : truthy (getD o (RawValue.int dflt)) = true
  · simpa [ht] using h ht
  · simp only [Bool.not_eq_true] at ht
    simp [ht, toInt]

theorem preNormalize_toRaw (f : PatientFacts) (hv : FactsValid f) :
    preNormalize (toRaw f) f.sbp f.gcs = f := by
  cases f with
  | mk a1 a2 a3 a4 a5 a6 a7 a8 a9 a10 a11 a12 a13 =>
    obtain ⟨h1, h2, h3, h4, h5, h6, h7, h8, h9, h10, h11, h12, h13, h14⟩ := hv
    simp only [preNormalize, toRaw, resolve_airway, getD, Option.getD_some,
      PatientFacts.mk.injEq]
    refine ⟨pick_of_mem _ _ h1, pick_of_mem _ _ h2, pick_of_mem _ _ h3,
      pick_of_mem _ _ h4, pick_of_mem _ _ h5, pick_of_mem _ _ h6,
      max_eq_right h7, pick_of_mem _ _ h8, pick_of_mem _ _ h9, ?_,
      pick_of_mem _ _ h12, pick_of_mem _ _ h13, pick_of_mem _ _ h14⟩
    rw [max_eq_right h10, min_eq_right h11]

theorem normalizeWith_toRaw (f : PatientFacts) (hv : FactsValid f)
    (hnr : f.airway = "unknown" → ¬ f.gcs ≤ 8) :
    normalizeWith (toRaw f) f.sbp f.gcs = f := by
  unfold normalizeWith
  rw [preNormalize_toRaw f hv]
  split
  case isTrue h => exact absurd h.2 (hnr h.1)
  case isFalse h => rfl

theorem readInt_toRaw_sbp (f : PatientFacts) (hnz : f.sbp ≠ 0) :
    readInt (toRaw f).sbp 120 = some f.sbp := by
  have ht : truthy (RawValue.int f.sbp) = true := by simpa [truthy] using hnz
  show toInt (pyOr (RawValue.int f.sbp) 120) = some f.sbp
  unfold pyOr
  rw [if_pos ht]
  rfl

theorem readInt_toRaw_gcs (f : PatientFacts) (hnz : f.gcs ≠ 0) :
    readInt (toRaw f).gcs 15 = some f.gcs := by
  have ht : truthy (RawValue.int f.gcs) = true := by simpa [truthy] using hnz
  show toInt (pyOr (RawValue.int f.gcs) 15) = some f.gcs
  unfold pyOr
  rw [if_pos ht]
  rfl

/-- Renormalizing a `normalize` output with nonzero `sbp` is the identity. -/
theorem normalize_fixed {f : PatientFacts} (hv : FactsValid f)
    (hnr : f.airway = "unknown" → ¬ f.gcs ≤ 8) (hnz : f.sbp ≠ 0) :
    normalize (toRaw f) = some f := by
  have hgz : f.gcs ≠ 0 := by
    obtain ⟨-, -, -, -, -, -, -, -, -, h10, -, -, -, -⟩ := hv
    omega
  unfold normalize
  rw [readInt_toRaw_sbp f hnz, readInt_toRaw_gcs f hgz]
  show some (normalizeWith (toRaw f) f.sbp f.gcs) = some f
  rw [normalizeWith_toRaw f hv hnr]

/-! ## Claim theorems: normalizer -/

/-- C1 counterexample: `normalize` is not total — for a truthy non-numeric
`sbp` string the Python `int(...)` raises `ValueError`, so no valid record
is returned. -/
theorem claim_C1_counterexample : normalize rawBadSbp = Option.none := by
  decide

/-- C1 (amended): for every input map whose `sbp` and `gcs` entries, when
truthy after the `or`-defaulting, are convertible by `int(...)`, `normalize`
returns a record satisfying every §3 domain constraint; all other fields are
arbitrary. -/
theorem claim_C1 (x : RawFacts)
    (hs : truthy (getD x.sbp (RawValue.int 120)) = true →
      (toInt (getD x.sbp (RawValue.int 120))).isSome)
    (hg : truthy (getD x.gcs (RawValue.int 15)) = true →
      (toInt (getD x.gcs (RawValue.int 15))).isSome) :
    ∃ f, normalize x = some f ∧ FactsValid f := by
  obtain ⟨s, hs2⟩ := Option.isSome_iff_exists.mp (readInt_isSome hs)
  obtain ⟨g, hg2⟩ := Option.isSome_iff_exists.mp (readInt_isSome hg)
  refine ⟨normalizeWith x s g, ?_, normalizeWith_valid x s g⟩
  unfold normalize
  rw [hs2, hg2]

/-- Witness for C1 at the empty input map. -/
theorem claim_C1_witness : ∃ f, normalize emptyRaw = some f ∧ FactsValid f :=
  claim_C1 emptyRaw (by decide) (by decide)

/-- C4: if the airway entry is absent or not an allowed airway string, and
the normalized gcs is at most 8, the output airway is "compromised"; when
the resolved airway is anything other than "unknown" the override leaves it
unchanged. -/
theorem claim_C4 (x : RawFacts) (f : PatientFacts) (hf : normalize x = some f) :
    ((∀ s ∈ airwayAllowed, x.airway ≠ some (RawValue.str s)) → f.gcs ≤ 8 →
      f.airway = "compromised") ∧
    (resolve_airway x ≠ "unknown" → f.airway = resolve_airway x) := by
  obtain ⟨s, g, hs, hg, rfl⟩ := of_normalize_eq_some hf
  exact ⟨fun h1 hg8 =>
      normalizeWith_airway_of_unknown x s g (resolve_airway_unknown h1) hg8,
    normalizeWith_airway_of_ne x s g⟩

/-- Witness for C4 at a map with no airway entry and `gcs = 6`. -/
theorem claim_C4_witness : factsLowGcs.airway = "compromised" :=
  (claim_C4 rawLowGcs factsLowGcs (by decide)).1 (by decide) (by decide)

/-- C5 counterexample: `normalize` is not idempotent — `sbp = -5` normalizes
to `sbp = 0`, and `0` is falsy in `d.get("sbp",120) or 120`, so the second
pass produces `sbp = 120`. -/
theorem claim_C5_counterexample :
    (normalize rawNegSbp).bind (fun f => normalize (toRaw f)) ≠
      normalize rawNegSbp := by decide

/-- C5 (amended): `normalize (normalize x) = normalize x` for every input
`x` whose normalized `sbp` is nonzero. -/
theorem claim_C5 (x : RawFacts) (f : PatientFacts)
    (hf : normalize x = some f) (hnz : f.sbp ≠ 0) :
    normalize (toRaw f) = some f := by
  obtain ⟨s, g, hs, hg, rfl⟩ := of_normalize_eq_some hf
  exact normalize_fixed (normalizeWith_valid x s g)
    (fun hu => normalizeWith_no_retrigger x s g hu) hnz

/-- Witness for C5 at the empty input map. -/
theorem claim_C5_witness : normalize (toRaw factsDefault) = some factsDefault :=
  claim_C5 emptyRaw factsDefault (by decide) (by decide)

/-! ## Lemmas about the distance -/

theorem case_distance_self (q : PatientFacts) : case_distance q q = 0 := by
  simp [case_distance, catStep, FEATURE_KEYS, SIM_WEIGHTS, weightOf,
    List.lookup_cons]

/-- C10: the weighted case distance is symmetric in its two fact records:
the numeric parts use absolute differences and the categorical parts use
equality tests. -/
theorem claim_C10 (q c : PatientFacts) :
    case_distance q c = case_distance c q := by
  have hfun : catStep q c = catStep c q := by
    funext d key
    unfold catStep
    rcases hl : SIM_WEIGHTS.lookup key with _ | w
    · simp [hl]
    · by_cases h : catField q key = catField c key
      · simp [hl, h]
      · simp [hl, h, Ne.symm h]
  unfold case_distance
  rw [hfun, abs_sub_comm ((q.sbp : ℚ)) ((c.sbp : ℚ)),
    abs_sub_comm ((q.gcs : ℚ)) ((c.gcs : ℚ))]

/-- C8: the plan comparison returns exactly the set intersection of the two
action-text lists under string equality, and its empty-overlap flag is true
exactly when no action text is shared; as a total function it never fails,
and an empty overlap is an ordinary result. -/
theorem claim_C8 (ruleActions caseActions : List String) :
    (∀ a, a ∈ (compare_plans ruleActions caseActions).1 ↔
      a ∈ ruleActions ∧ a ∈ caseActions) ∧
    ((compare_plans ruleActions caseActions).2 = true ↔
      ∀ a, ¬ (a ∈ ruleActions ∧ a ∈ caseActions)) := by
  constructor
  · intro a
    simp [compare_plans, List.mem_filter]
  · simp only [compare_plans, List.isEmpty_iff, List.filter_eq_nil_iff,
      decide_eq_true_eq]
    constructor
    · rintro h a ⟨h1, h2⟩
      exact h a h1 h2
    · intro h a ha hca
      exact h a ⟨ha, hca⟩

/-- Closed form of `case_distance`: the loop over the concrete
`FEATURE_KEYS` with the concrete `SIM_WEIGHTS` unfolds, by computation, to
the thirteen-term weighted sum. -/
theorem case_distance_eval (q c : PatientFacts) :
    case_distance q c =
      0 + 1 * (|(q.sbp : ℚ) - (c.sbp : ℚ)| / 40)
        + 1 * (|(q.gcs : ℚ) - (c.gcs : ℚ)| / 15)
        + 2 * (if catField q "airway" = catField c "airway" then 0 else 1)
        + 1 / 2 * (if catField q "cspine" = catField c "cspine" then 0 else 1)
        + 3 * (if catField q "tension_ptx" = catField c "tension_ptx" then 0 else 1)
        + 3 * (if catField q "open_ptx" = catField c "open_ptx" then 0 else 1)
        + 3 / 2 * (if catField q "flail" = catField c "flail" then 0 else 1)
        + 3 / 2 * (if catField q "resp_distress" = catField c "resp_distress" then 0 else 1)
        + 3 * (if catField q "ext_bleed" = catField c "ext_bleed" then 0 else 1)
        + 2 * (if catField q "pelvic_unstable" = catField c "pelvic_unstable" then 0 else 1)
        + 1 * (if catField q "hypothermia" = catField c "hypothermia" then 0 else 1)
        + 1 * (if catField q "burns" = catField c "burns" then 0 else 1)
        + 1 * (if catField q "pupils" = catField c "pupils" then 0 else 1) := rfl

/-- A strictly positive distance gives similarity strictly below one. -/
theorem sim_lt_one {q : PatientFacts} {c : Case}
    (h : 0 < case_distance q (caseFacts c)) : (score q c).1 < 1 := by
  show 1 / (1 + case_distance q (caseFacts c)) < 1
  rw [div_lt_one (by linarith)]
  linarith

/-- The query equal to case 1's facts retrieves case 1 first, with
similarity exactly one. -/
theorem retrieve_case1_head :
    (retrieve_top_k (caseFacts case1) 3).head? = some (1, case1) := by
  have h1 : score (caseFacts case1) case1 = ((1 : ℚ), case1) := by
    unfold score
    rw [case_distance_self]
    norm_num
  have hm : ∀ y ∈ sortDesc (List.map (score (caseFacts case1))
      [case2, case3, case4, case5, case6, case7, case8, case9, case10]),
      y.1 < 1 := by
    intro y hy
    rw [mem_sortDesc] at hy
    simp only [List.mem_map, List.mem_cons, List.not_mem_nil, or_false] at hy
    obtain ⟨c, hc, rfl⟩ := hy
    refine sim_lt_one ?_
    rcases hc with rfl | rfl | rfl | rfl | rfl | rfl | rfl | rfl | rfl <;>
      rw [case_distance_eval] <;>
      simp [catField, caseFacts, case1, case2, case3, case4, case5, case6,
        case7, case8, case9, case10] <;>
      norm_num
  have hr : retrieve_top_k (caseFacts case1) 3 =
      (insertDesc (score (caseFacts case1) case1)
        (sortDesc (List.map (score (caseFacts case1))
          [case2, case3, case4, case5, case6, case7, case8, case9, case10]))).take 3 :=
    rfl
  rw [hr, h1]
  cases hm2 : sortDesc (List.map (score (caseFacts case1))
      [case2, case3, case4, case5, case6, case7, case8, case9, case10]) with
  | nil => rfl
  | cons y ys =>
    have hy : y.1 < 1 := hm y (by rw [hm2]; exact List.mem_cons_self y ys)
    unfold insertDesc
    rw [if_neg (by simpa using not_lt.mpr (le_of_lt hy))]
    rfl

/-- C7: a query equal to a stored case's thirteen fact fields is at distance
zero from it with similarity one; in particular the query equal to case 1
retrieves case 1 as the top neighbor with similarity 1.0 and an empty
differing-features list. -/
theorem claim_C7 (c : Case) (_hc : c ∈ CASE_BASE) :
    (case_distance (caseFacts c) (caseFacts c) = 0 ∧
      (1 : ℚ) / (1 + case_distance (caseFacts c) (caseFacts c)) = 1) ∧
    ((retrieve_top_k (caseFacts case1) 3).head? = some (1, case1) ∧
      (explain_match (caseFacts case1) case1).2 = []) := by
  refine ⟨⟨case_distance_self _, ?_⟩, retrieve_case1_head, by decide⟩
  rw [case_distance_self]
  norm_num

/-- Witness for C7 at case 1. -/
theorem claim_C7_witness :
    (case_distance (caseFacts case1) (caseFacts case1) = 0 ∧
      (1 : ℚ) / (1 + case_distance (caseFacts case1) (caseFacts case1)) = 1) ∧
    ((retrieve_top_k (caseFacts case1) 3).head? = some (1, case1) ∧
      (explain_match (caseFacts case1) case1).2 = []) :=
  claim_C7 case1 (by decide)

/-- Stability of `sortDesc` in index form: when the input list is strictly
increasing on case ids, two sorted positions with equal keys keep the id
order. -/
theorem sortDesc_stable_ids (s : List (ℚ × Case))
    (hpw : s.Pairwise (fun a b => a.2.id < b.2.id))
    (i j : Nat) (hij : i < j)
    (hi2 : i < (sortDesc s).length) (hj2 : j < (sortDesc s).length)
    (heq : ((sortDesc s).get ⟨i, hi2⟩).1 = ((sortDesc s).get ⟨j, hj2⟩).1) :
    ((sortDesc s).get ⟨i, hi2⟩).2.id < ((sortDesc s).get ⟨j, hj2⟩).2.id := by
  have hnodup_s : s.Nodup :=
    hpw.imp (fun h heq2 => by rw [heq2] at h; exact lt_irrefl _ h)
  have hnodup : (sortDesc s).Nodup := ((perm_sortDesc s).nodup_iff).mpr hnodup_s
  have hxy : List.Sublist
      [(sortDesc s).get ⟨i, hi2⟩, (sortDesc s).get ⟨j, hj2⟩] (sortDesc s) :=
    pair_get_sublist (sortDesc s) i j hij hj2
  have hne : (sortDesc s).get ⟨i, hi2⟩ ≠ (sortDesc s).get ⟨j, hj2⟩ := by
    intro he
    have h2 : (⟨i, hi2⟩ : Fin (sortDesc s).length) = ⟨j, hj2⟩ :=
      (hnodup.get_inj_iff).mp he
    have : i = j := congrArg Fin.val h2
    omega
  have hxm : (sortDesc s).get ⟨i, hi2⟩ ∈ s :=
    mem_sortDesc.mp ((sortDesc s).get_mem _ _)
  have hym : (sortDesc s).get ⟨j, hj2⟩ ∈ s :=
    mem_sortDesc.mp ((sortDesc s).get_mem _ _)
  rcases pair_sublist_of_mem hxm hym hne with hin | hin
  · have hp := List.Pairwise.sublist hin hpw
    exact (List.pairwise_cons.mp hp).1 _ (List.mem_singleton.mpr rfl)
  · have hyx : List.Sublist
        [(sortDesc s).get ⟨j, hj2⟩, (sortDesc s).get ⟨i, hi2⟩] (sortDesc s) :=
      pair_sublist_sortDesc hin (le_of_eq heq)
    exact absurd (eq_of_pair_sublist_both hnodup hxy hyx) hne

/-- C6: for every normalized query and every k, `retrieve_top_k` returns
`min k N` scored pairs (N the case-base size), sorted by similarity
descending, and pairs with equal similarity appear in case-base order — the
case ids, which enumerate the case base in its original order. -/
theorem claim_C6 (q : PatientFacts) (_hq : FactsValid q) (k : Nat) :
    (retrieve_top_k q k).length = min k CASE_BASE.length ∧
    (retrieve_top_k q k).Pairwise (fun a b => b.1 ≤ a.1) ∧
    (∀ i j (hi : i < (retrieve_top_k q k).length)
      (hj : j < (retrieve_top_k q k).length), i < j →
      ((retrieve_top_k q k).get ⟨i, hi⟩).1 =
        ((retrieve_top_k q k).get ⟨j, hj⟩).1 →
      ((retrieve_top_k q k).get ⟨i, hi⟩).2.id <
        ((retrieve_top_k q k).get ⟨j, hj⟩).2.id) ∧
    CASE_BASE.map Case.id = [1, 2, 3, 4, 5, 6, 7, 8, 9, 10] := by
  have hids : CASE_BASE.Pairwise (fun a b => a.id < b.id) := by decide
  have hscored : (CASE_BASE.map (score q)).Pairwise
      (fun a b => a.2.id < b.2.id) :=
    hids.map (score q) (fun a b h => h)
  have hmlen : (sortDesc (CASE_BASE.map (score q))).length = CASE_BASE.length := by
    rw [length_sortDesc, List.length_map]
  have hlen : (retrieve_top_k q k).length = min k CASE_BASE.length := by
    unfold retrieve_top_k
    rw [List.length_take, length_sortDesc, List.length_map]
  refine ⟨hlen, ?_, ?_, by decide⟩
  · exact List.Pairwise.sublist (List.take_sublist k _) (pairwise_sortDesc _)
  · intro i j hi hj hij heq
    have hi3 : i < min k CASE_BASE.length := by rw [hlen] at hi; exact hi
    have hj3 : j < min k CASE_BASE.length := by rw [hlen] at hj; exact hj
    have hi2 : i < (sortDesc (CASE_BASE.map (score q))).length := by
      rw [hmlen]; omega
    have hj2 : j < (sortDesc (CASE_BASE.map (score q))).length := by
      rw [hmlen]; omega
    have hgi : (retrieve_top_k q k).get ⟨i, hi⟩ =
        (sortDesc (CASE_BASE.map (score q))).get ⟨i, hi2⟩ := by
      show ((sortDesc (CASE_BASE.map (score q))).take k).get ⟨i, hi⟩ = _
      simp [List.get_eq_getElem, List.getElem_take]
    have hgj : (retrieve_top_k q k).get ⟨j, hj⟩ =
        (sortDesc (CASE_BASE.map (score q))).get ⟨j, hj2⟩ := by
      show ((sortDesc (CASE_BASE.map (score q))).take k).get ⟨j, hj⟩ = _
      simp [List.get_eq_getElem, List.getElem_take]
    rw [hgi, hgj] at heq ⊢
    exact sortDesc_stable_ids (CASE_BASE.map (score q)) hscored i j hij hi2 hj2 heq

/-- Witness for C6 at the stable record and k = 3. -/
theorem claim_C6_witness :
    (retrieve_top_k fStable 3).length = min 3 CASE_BASE.length ∧
    (retrieve_top_k fStable 3).Pairwise (fun a b => b.1 ≤ a.1) ∧
    (∀ i j (hi : i < (retrieve_top_k fStable 3).length)
      (hj : j < (retrieve_top_k fStable 3).length), i < j →
      ((retrieve_top_k fStable 3).get ⟨i, hi⟩).1 =
        ((retrieve_top_k fStable 3).get ⟨j, hj⟩).1 →
      ((retrieve_top_k fStable 3).get ⟨i, hi⟩).2.id <
        ((retrieve_top_k fStable 3).get ⟨j, hj⟩).2.id) ∧
    CASE_BASE.map Case.id = [1, 2, 3, 4, 5, 6, 7, 8, 9, 10] :=
  claim_C6 fStable (by decide) 3

/-! ## Lemmas about the rule engine -/

theorem mem_ite_list {α : Type _} {a : α} {c : Prop} [Decidable c] {l : List α} :
    (a ∈ if c then l else []) ↔ c ∧ a ∈ l := by
  split
  case isTrue h => simp [h]
  case isFalse h => simp [h]

theorem mem_seg_disposition {a : Action} {f : PatientFacts} :
    a ∈ seg_disposition f ↔
      (stable_for_secondary f ∧ a = actSecondary) ∨
      (¬ stable_for_secondary f ∧
        (f.sbp < 90 ∨ f.tension_ptx = "yes" ∨ f.airway = "obstructed") ∧
        a = actTransfer) := by
  unfold seg_disposition
  split
  case isTrue h => simp [h]
  case isFalse h =>
    split
    case isTrue h2 => simp [h, h2]
    case isFalse h2 => simp [h, h2]

/-- The engine output splits as the pre-exposure segments, the exposure
action, and the post-exposure segments. -/
theorem run_engine_split (f : PatientFacts) :
    run_atls_engine f =
      engine_before_exposure f ++ actExposure :: engine_after_exposure f := by
  simp [run_atls_engine, engine_before_exposure, engine_after_exposure,
    List.append_assoc]

/-- Everything before the exposure action is the primary-survey action or an
A/B/C/D-triggered action. -/
theorem mem_engine_before {x : Action} {f : PatientFacts}
    (hx : x ∈ engine_before_exposure f) : x ∈ actPrimary :: abcdActionPool := by
  simp only [engine_before_exposure, List.mem_append, mem_ite_list,
    List.mem_cons, List.mem_singleton, List.not_mem_nil, or_false,
    or_assoc] at hx
  rcases hx with rfl | ⟨-, rfl | rfl⟩ | ⟨_, rfl⟩ | ⟨-, rfl⟩ | ⟨_, rfl⟩ |
    ⟨-, rfl⟩ | ⟨_, rfl⟩ | ⟨-, rfl⟩ | ⟨_, rfl⟩ | ⟨-, rfl⟩ | ⟨_, rfl⟩ <;> decide

/-- Everything after the exposure action is the hypothermia action or a
disposition action. -/
theorem mem_engine_after {x : Action} {f : PatientFacts}
    (hx : x ∈ engine_after_exposure f) :
    x ∈ [actHypothermia, actSecondary, actTransfer] := by
  simp only [engine_after_exposure, List.mem_append, mem_ite_list,
    List.mem_singleton] at hx
  rcases hx with ⟨-, rfl⟩ | hx
  · decide
  · rw [mem_seg_disposition] at hx
    rcases hx with ⟨-, rfl⟩ | ⟨-, -, rfl⟩ <;> decide

/-- An action that is none of the pre-exposure, exposure, or hypothermia
actions is in the engine output exactly when the disposition branch emits
it. -/
theorem mem_run_iff_disposition (a : Action) (f : PatientFacts)
    (h1 : a ∉ actPrimary :: abcdActionPool) (h2 : a ≠ actExposure)
    (h3 : a ≠ actHypothermia) :
    a ∈ run_atls_engine f ↔ a ∈ seg_disposition f := by
  rw [run_engine_split]
  simp only [List.mem_append, List.mem_cons]
  constructor
  · rintro (hx | rfl | hx)
    · exact absurd (mem_engine_before hx) h1
    · exact absurd rfl h2
    · simp only [engine_after_exposure, List.mem_append, mem_ite_list,
        List.mem_singleton] at hx
      rcases hx with ⟨-, rfl⟩ | hx
      · exact absurd rfl h3
      · exact hx
  · intro h
    refine Or.inr (Or.inr ?_)
    simp only [engine_after_exposure, List.mem_append]
    exact Or.inr h

/-! ## Claim theorems: rule engine -/

/-- C2: for every fact record satisfying the §3 invariants, the action list
of `run_atls_engine` has the primary-survey action first, and contains the
exposure action exactly once, after every airway/breathing/circulation/
disability-triggered action and before any disposition action. -/
theorem claim_C2 (f : PatientFacts) (_hv : FactsValid f) :
    (run_atls_engine f).head? = some actPrimary ∧
    ∃ pre post,
      run_atls_engine f = pre ++ actExposure :: post ∧
      actExposure ∉ pre ∧ actExposure ∉ post ∧
      (∀ b ∈ abcdActionPool, b ∉ post) ∧
      actSecondary ∉ pre ∧ actTransfer ∉ pre := by
  refine ⟨rfl, engine_before_exposure f, engine_after_exposure f,
    run_engine_split f, ?_, ?_, ?_, ?_, ?_⟩
  · intro h
    have := mem_engine_before h
    revert this; decide
  · intro h
    have := mem_engine_after h
    revert this; decide
  · intro b hb hp
    have hb2 := mem_engine_after hp
    simp only [List.mem_cons, List.not_mem_nil, or_false] at hb2
    rcases hb2 with rfl | rfl | rfl <;> revert hb <;> decide
  · intro h
    have := mem_engine_before h
    revert this; decide
  · intro h
    have := mem_engine_before h
    revert this; decide

/-- Witness for C2 at the concrete stable fact record. -/
theorem claim_C2_witness :
    (run_atls_engine fStable).head? = some actPrimary ∧
    ∃ pre post,
      run_atls_engine fStable = pre ++ actExposure :: post ∧
      actExposure ∉ pre ∧ actExposure ∉ post ∧
      (∀ b ∈ abcdActionPool, b ∉ post) ∧
      actSecondary ∉ pre ∧ actTransfer ∉ pre :=
  claim_C2 fStable (by decide)

/-- C3: the two disposition actions are mutually exclusive, the secondary
survey is emitted exactly under the stable-for-secondary condition, and the
transfer exactly under the residual instability condition. -/
theorem claim_C3 (f : PatientFacts) (_hv : FactsValid f) :
    (actSecondary ∈ run_atls_engine f ↔ stable_for_secondary f) ∧
    (actTransfer ∈ run_atls_engine f ↔
      ¬ stable_for_secondary f ∧
        (f.sbp < 90 ∨ f.tension_ptx = "yes" ∨ f.airway = "obstructed")) ∧
    ¬ (actSecondary ∈ run_atls_engine f ∧ actTransfer ∈ run_atls_engine f) := by
  have hs : actSecondary ∈ run_atls_engine f ↔ stable_for_secondary f := by
    rw [mem_run_iff_disposition actSecondary f (by decide) (by decide) (by decide),
      mem_seg_disposition]
    simp [show actSecondary ≠ actTransfer from by decide]
  have ht : actTransfer ∈ run_atls_engine f ↔
      ¬ stable_for_secondary f ∧
        (f.sbp < 90 ∨ f.tension_ptx = "yes" ∨ f.airway = "obstructed") := by
    rw [mem_run_iff_disposition actTransfer f (by decide) (by decide) (by decide),
      mem_seg_disposition]
    simp [show actTransfer ≠ actSecondary from by decide, and_assoc]
  exact ⟨hs, ht, fun h => (ht.mp h.2).1 (hs.mp h.1)⟩

/-- Witness for C3 at the concrete stable fact record. -/
theorem claim_C3_witness :
    (actSecondary ∈ run_atls_engine fStable ↔ stable_for_secondary fStable) ∧
    (actTransfer ∈ run_atls_engine fStable ↔
      ¬ stable_for_secondary fStable ∧
        (fStable.sbp < 90 ∨ fStable.tension_ptx = "yes" ∨
          fStable.airway = "obstructed")) ∧
    ¬ (actSecondary ∈ run_atls_engine fStable ∧
        actTransfer ∈ run_atls_engine fStable) :=
  claim_C3 fStable (by decide)

/-- C9: on the Scenario-B stable record the engine emits exactly the primary
survey, exposure, and secondary survey, in that order, and no transfer,
neuro, or hemorrhage-control action. -/
theorem claim_C9 :
    run_atls_engine fStable = [actPrimary, actExposure, actSecondary] ∧
    actTransfer ∉ run_atls_engine fStable ∧
    actNeuro ∉ run_atls_engine fStable ∧
    actBleed ∉ run_atls_engine fStable := by decide

end ATLS
